import Mathlib

/-!
Shallow embedding of the OpenCL renderer (`CLProgram.cpp`) and the INF-file
decryption loop (`INFFile.cpp`) of OpenTESArena.

Device interaction is modelled as a trace of `CLCall` events.  Statuses that
the OpenCL runtime would return are supplied by a `DeviceEnv` oracle; a failed
`Debug::check` becomes a `fatal` outcome carrying the trace so far together
with the component name and message, and a failed C `assert` becomes an
`assertFail` outcome carrying the trace so far.
-/

set_option maxHeartbeats 2000000

set_option maxRecDepth 8000

namespace CLProgram

/-- `CL_SUCCESS` from the OpenCL headers. -/
def CL_SUCCESS : Int := 0

/-- `CL_DEVICE_NOT_FOUND` from the OpenCL headers. -/
def CL_DEVICE_NOT_FOUND : Int := -1

/-- `CL_DEVICE_TYPE_GPU = (1 << 2)` from the OpenCL headers. -/
def CL_DEVICE_TYPE_GPU : Nat := 4

/-- `CL_MEM_READ_ONLY = (1 << 2)` from the OpenCL headers. -/
def CL_MEM_READ_ONLY : Nat := 4

/-- `CL_MEM_WRITE_ONLY = (1 << 1)` from the OpenCL headers. -/
def CL_MEM_WRITE_ONLY : Nat := 2

/-- `sizeof(cl_int)` in bytes. -/
def sizeof_cl_int : Int := 4

/-- `sizeof(cl_float)` in bytes. -/
def sizeof_cl_float : Int := 4

/-- `sizeof(cl_float3)` in bytes: the OpenCL headers typedef `cl_float3` to
`cl_float4`, so the 3-component vector type carries one trailing padding
component and its size is 16 bytes, not 12. -/
def sizeof_cl_float3 : Int := 16

/-- The two device buffers owned by `CLProgram`. -/
inductive BufId where
  | direction
  | color
deriving DecidableEq, Repr

/-- One call into the OpenCL runtime, as issued by `CLProgram`. -/
inductive CLCall where
  | getPlatforms
  | getDevices (platformIndex : Nat) (deviceType : Nat)
  | createContext (deviceIndex : Nat)
  | createCommandQueue
  | createProgram (source : String)
  | buildProgram (options : String)
  | createKernel (name : String)
  | createBuffer (buf : BufId) (flags : Nat) (size : Int)
  | setArg (index : Nat) (buf : BufId)
  | enqueueWriteBuffer (buf : BufId) (blocking : Bool) (offset : Int) (size : Int)
  | enqueueNDRangeKernel (globalWidth globalHeight : Int)
  | finish
  | enqueueReadBuffer (buf : BufId) (blocking : Bool) (offset : Int) (size : Int)
deriving DecidableEq, Repr

/-- Result of running a `CLProgram` member function: normal return with the
trace of device calls issued, a `Debug::check` failure (component, message),
or a C `assert` failure.  In each case the trace lists the device calls that
were issued before the function ended. -/
inductive Outcome (α : Type) where
  | ok : List CLCall → α → Outcome α
  | fatal : List CLCall → String → String → Outcome α
  | assertFail : List CLCall → Outcome α
deriving DecidableEq, Repr

/-- Oracle for everything the OpenCL runtime and the filesystem supply:
the status each call returns, how many platforms/devices exist, the kernel
source text, and the build log.  `ratioString` stands for
`std::to_string(static_cast<double>(width) / static_cast<double>(height))`,
whose floating-point formatting is not modelled bit-exactly. -/
structure DeviceEnv where
  platformStatus : Int
  platforms : Nat
  deviceStatus : Int
  devices : Nat
  contextStatus : Int
  queueStatus : Int
  kernelSource : String
  ratioString : Int → Int → String
  programStatus : Int
  buildStatus : Int
  buildLog : String
  kernelStatus : Int
  dirBufferStatus : Int
  colorBufferStatus : Int
  writeStatus : Int
  setArgStatus : Int
  ndrangeStatus : Int
  finishStatus : Int
  readStatus : Int

/-- The fields of `CLProgram` that the embedded member functions read:
the stored frame dimensions and the index of the selected device. -/
structure CLState where
  width : Int
  height : Int
  deviceIndex : Nat
deriving DecidableEq, Repr

/-- `CLProgram::getErrorString`, the switch over OpenCL status codes.
`buildLog` stands for `this->getBuildReport()`, the live
`CL_PROGRAM_BUILD_LOG` text that case `-11` returns. -/
def getErrorString (buildLog : String) (error : Int) : String :=
  match error with
  | 0 => "CL_SUCCESS"
  | -1 => "CL_DEVICE_NOT_FOUND"
  | -2 => "CL_DEVICE_NOT_AVAILABLE"
  | -3 => "CL_COMPILER_NOT_AVAILABLE"
  | -4 => "CL_MEM_OBJECT_ALLOCATION_FAILURE"
  | -5 => "CL_OUT_OF_RESOURCES"
  | -6 => "CL_OUT_OF_HOST_MEMORY"
  | -7 => "CL_PROFILING_INFO_NOT_AVAILABLE"
  | -8 => "CL_MEM_COPY_OVERLAP"
  | -9 => "CL_IMAGE_FORMAT_MISMATCH"
  | -10 => "CL_IMAGE_FORMAT_NOT_SUPPORTED"
  | -11 => buildLog
  | -12 => "CL_MAP_FAILURE"
  | -13 => "CL_MISALIGNED_SUB_BUFFER_OFFSET"
  | -14 => "CL_EXEC_STATUS_ERROR_FOR_EVENTS_IN_WAIT_LIST"
  | -15 => "CL_COMPILE_PROGRAM_FAILURE"
  | -16 => "CL_LINKER_NOT_AVAILABLE"
  | -17 => "CL_LINK_PROGRAM_FAILURE"
  | -18 => "CL_DEVICE_PARTITION_FAILED"
  | -19 => "CL_KERNEL_ARG_INFO_NOT_AVAILABLE"
  | -30 => "CL_INVALID_VALUE"
  | -31 => "CL_INVALID_DEVICE_TYPE"
  | -32 => "CL_INVALID_PLATFORM"
  | -33 => "CL_INVALID_DEVICE"
  | -34 => "CL_INVALID_CONTEXT"
  | -35 => "CL_INVALID_QUEUE_PROPERTIES"
  | -36 => "CL_INVALID_COMMAND_QUEUE"
  | -37 => "CL_INVALID_HOST_PTR"
  | -38 => "CL_INVALID_MEM_OBJECT"
  | -39 => "CL_INVALID_IMAGE_FORMAT_DESCRIPTOR"
  | -40 => "CL_INVALID_IMAGE_SIZE"
  | -41 => "CL_INVALID_SAMPLER"
  | -42 => "CL_INVALID_BINARY"
  | -43 => "CL_INVALID_BUILD_OPTIONS"
  | -44 => "CL_INVALID_PROGRAM"
  | -45 => "CL_INVALID_PROGRAM_EXECUTABLE"
  | -46 => "CL_INVALID_KERNEL_NAME"
  | -47 => "CL_INVALID_KERNEL_DEFINITION"
  | -48 => "CL_INVALID_KERNEL"
  | -49 => "CL_INVALID_ARG_INDEX"
  | -50 => "CL_INVALID_ARG_VALUE"
  | -51 => "CL_INVALID_ARG_SIZE"
  | -52 => "CL_INVALID_KERNEL_ARGS"
  | -53 => "CL_INVALID_WORK_DIMENSION"
  | -54 => "CL_INVALID_WORK_GROUP_SIZE"
  | -55 => "CL_INVALID_WORK_ITEM_SIZE"
  | -56 => "CL_INVALID_GLOBAL_OFFSET"
  | -57 => "CL_INVALID_EVENT_WAIT_LIST"
  | -58 => "CL_INVALID_EVENT"
  | -59 => "CL_INVALID_OPERATION"
  | -60 => "CL_INVALID_GL_OBJECT"
  | -61 => "CL_INVALID_BUFFER_SIZE"
  | -62 => "CL_INVALID_MIP_LEVEL"
  | -63 => "CL_INVALID_GLOBAL_WORK_SIZE"
  | -64 => "CL_INVALID_PROPERTY"
  | -65 => "CL_INVALID_IMAGE_DESCRIPTOR"
  | -66 => "CL_INVALID_COMPILER_OPTIONS"
  | -67 => "CL_INVALID_LINKER_OPTIONS"
  | -68 => "CL_INVALID_DEVICE_PARTITION_COUNT"
  | -1000 => "CL_INVALID_GL_SHAREGROUP_REFERENCE_KHR"
  | -1001 => "CL_PLATFORM_NOT_FOUND_KHR"
  | -1002 => "CL_INVALID_D3D10_DEVICE_KHR"
  | -1003 => "CL_INVALID_D3D10_RESOURCE_KHR"
  | -1004 => "CL_D3D10_RESOURCE_ALREADY_ACQUIRED_KHR"
  | -1005 => "CL_D3D10_RESOURCE_NOT_ACQUIRED_KHR"
  | e => "Unknown OpenCL error \"" ++ toString e ++ "\""

/-- Whether `error` is one of the status codes that has its own case label in
the `getErrorString` switch (i.e. does not fall through to `default`). -/
def isKnownCode (error : Int) : Bool :=
  match error with
  | 0 | -1 | -2 | -3 | -4 | -5 | -6 | -7 | -8 | -9 | -10 | -11 | -12 | -13
  | -14 | -15 | -16 | -17 | -18 | -19
  | -30 | -31 | -32 | -33 | -34 | -35 | -36 | -37 | -38 | -39 | -40 | -41
  | -42 | -43 | -44 | -45 | -46 | -47 | -48 | -49 | -50 | -51 | -52 | -53
  | -54 | -55 | -56 | -57 | -58 | -59 | -60 | -61 | -62 | -63 | -64 | -65
  | -66 | -67 | -68
  | -1000 | -1001 | -1002 | -1003 | -1004 | -1005 => true
  | _ => false

/-- The `defines` string the constructor prepends to the kernel source:
`"#define SCREEN_WIDTH " + to_string(width) + "\n" + "#define SCREEN_HEIGHT "
+ to_string(height) + "\n" + "#define ASPECT_RATIO " + to_string(ratio) +
"f\n"`, where `ratio` is the width/height quotient rendered as a decimal
string (parameter `r`). -/
def definesString (width height : Int) (r : String) : String :=
  "#define SCREEN_WIDTH " ++ toString width ++ "\n" ++ "#define SCREEN_HEIGHT " ++
    toString height ++ "\n" ++ "#define ASPECT_RATIO " ++ r ++ "f\n"

/-- The build options string passed to `cl::Program::build`. -/
def clOptions : String := "-cl-fast-relaxed-math -cl-strict-aliasing"

/-- `CLProgram::CLProgram(int width, int height)`.  Mirrors the statement
order of the constructor: the two `assert`s, platform enumeration, device
enumeration on the first platform, context and queue creation, program
creation from defines + source, build, kernel extraction, the two buffer
allocations, and the two initial `setArg` calls. -/
def construct (env : DeviceEnv) (width height : Int) : Outcome CLState :=
  if ¬ width > 0 then .assertFail [] else
  if ¬ height > 0 then .assertFail [] else
  let t := [CLCall.getPlatforms]
  if ¬ env.platformStatus = CL_SUCCESS then
    .fatal t "CLProgram" "CLProgram::getPlatforms." else
  if ¬ env.platforms > 0 then .fatal t "CLProgram" "No OpenCL platform found." else
  let t := t ++ [CLCall.getDevices 0 CL_DEVICE_TYPE_GPU]
  if ¬ (env.deviceStatus = CL_SUCCESS ∨ env.deviceStatus = CL_DEVICE_NOT_FOUND) then
    .fatal t "CLProgram" "CLProgram::getDevices." else
  if ¬ env.devices > 0 then .fatal t "CLProgram" "No OpenCL device found." else
  let t := t ++ [CLCall.createContext 0]
  if ¬ env.contextStatus = CL_SUCCESS then .fatal t "CLProgram" "cl::Context." else
  let t := t ++ [CLCall.createCommandQueue]
  if ¬ env.queueStatus = CL_SUCCESS then .fatal t "CLProgram" "cl::CommandQueue." else
  let source := definesString width height (env.ratioString width height) ++ env.kernelSource
  let t := t ++ [CLCall.createProgram source]
  if ¬ env.programStatus = CL_SUCCESS then .fatal t "CLProgram" "cl::Program." else
  let t := t ++ [CLCall.buildProgram clOptions]
  if ¬ env.buildStatus = CL_SUCCESS then
    .fatal t "CLProgram"
      ("cl::Program::build (" ++ getErrorString env.buildLog env.buildStatus ++ ").") else
  let t := t ++ [CLCall.createKernel "test"]
  if ¬ env.kernelStatus = CL_SUCCESS then .fatal t "CLProgram" "cl::Kernel." else
  let t := t ++ [CLCall.createBuffer .direction CL_MEM_READ_ONLY sizeof_cl_float3]
  if ¬ env.dirBufferStatus = CL_SUCCESS then
    .fatal t "CLProgram" "cl::Buffer directionBuffer." else
  let t := t ++ [CLCall.createBuffer .color CL_MEM_WRITE_ONLY
    (sizeof_cl_int * width * height)]
  if ¬ env.colorBufferStatus = CL_SUCCESS then
    .fatal t "CLProgram" "cl::Buffer colorBuffer." else
  let t := t ++ [CLCall.setArg 0 .direction, CLCall.setArg 1 .color]
  .ok t { width := width, height := height, deviceIndex := 0 }

/-- The device-call trace of a fully successful constructor run. -/
def constructTrace (env : DeviceEnv) (width height : Int) : List CLCall :=
  [CLCall.getPlatforms,
   CLCall.getDevices 0 CL_DEVICE_TYPE_GPU,
   CLCall.createContext 0,
   CLCall.createCommandQueue,
   CLCall.createProgram
     (definesString width height (env.ratioString width height) ++ env.kernelSource),
   CLCall.buildProgram clOptions,
   CLCall.createKernel "test",
   CLCall.createBuffer .direction CL_MEM_READ_ONLY sizeof_cl_float3,
   CLCall.createBuffer .color CL_MEM_WRITE_ONLY (sizeof_cl_int * width * height),
   CLCall.setArg 0 .direction,
   CLCall.setArg 1 .color]

/-- The host-side staging buffer of `updateDirection`, viewed through the
`cl_float*` cast: `std::vector<char>(sizeof(cl_float3))` is 16 zero-filled
bytes, i.e. 4 zero-valued `cl_float` slots, and the three stores put the
direction components into slots 0, 1 and 2.  `α` stands for the `cl_float`
value type and `zero` for the vector's zero initialization. -/
def directionHostBuffer {α : Type} (x y z zero : α) : List α :=
  (((List.replicate (sizeof_cl_float3 / sizeof_cl_float).toNat zero).set 0 x).set 1 y).set 2 z

/-- `CLProgram::updateDirection(const Float3d &direction)`.  Builds the host
staging buffer from the three casted components, blocking-writes
`buffer.size()` bytes of it into the direction buffer at offset 0, then
re-binds kernel argument 0 to the direction buffer. -/
def updateDirection {α : Type} (env : DeviceEnv) (st : CLState) (x y z zero : α) :
    Outcome CLState :=
  let buffer := directionHostBuffer x y z zero
  let t := [CLCall.enqueueWriteBuffer .direction true 0 (sizeof_cl_float * buffer.length)]
  if ¬ env.writeStatus = CL_SUCCESS then
    .fatal t "CLProgram" "cl::enqueueWriteBuffer updateDirection" else
  let t := t ++ [CLCall.setArg 0 .direction]
  if ¬ env.setArgStatus = CL_SUCCESS then
    .fatal t "CLProgram" "cl::Kernel::setArg updateDirection." else
  .ok t st

/-- The dimensions of an `SDL_Surface` destination. -/
structure SDLSurface where
  w : Int
  h : Int
deriving DecidableEq, Repr

/-- `CLProgram::render(SDL_Surface *dst)`.  Mirrors the three `assert`s
(non-null destination, width match, height match) followed by the kernel
enqueue over a (width, height) grid, the queue drain, and the blocking
read-back of `sizeof(cl_int) * width * height` bytes of the color buffer. -/
def render (env : DeviceEnv) (st : CLState) (dst : Option SDLSurface) : Outcome CLState :=
  match dst with
  | none => .assertFail []
  | some d =>
    if ¬ st.width = d.w then .assertFail [] else
    if ¬ st.height = d.h then .assertFail [] else
    let t := [CLCall.enqueueNDRangeKernel st.width st.height]
    if ¬ env.ndrangeStatus = CL_SUCCESS then
      .fatal t "CLProgram" "cl::CommandQueue::enqueueNDRangeKernel." else
    let t := t ++ [CLCall.finish]
    if ¬ env.finishStatus = CL_SUCCESS then
      .fatal t "CLProgram" "cl::CommandQueue::finish." else
    let t := t ++ [CLCall.enqueueReadBuffer .color true 0
      (sizeof_cl_int * st.width * st.height)]
    if ¬ env.readStatus = CL_SUCCESS then
      .fatal t "CLProgram" "cl::CommandQueue::enqueueReadBuffer." else
    .ok t st

/-- All statuses up to and including program creation are `CL_SUCCESS`, and a
platform and a device exist. -/
def envPreBuildOK (env : DeviceEnv) : Bool :=
  decide (env.platformStatus = CL_SUCCESS) && decide (env.platforms > 0) &&
    decide (env.deviceStatus = CL_SUCCESS) && decide (env.devices > 0) &&
    decide (env.contextStatus = CL_SUCCESS) && decide (env.queueStatus = CL_SUCCESS) &&
    decide (env.programStatus = CL_SUCCESS)

/-- Every constructor-stage status is `CL_SUCCESS`, and a platform and a
device exist. -/
def envOK (env : DeviceEnv) : Bool :=
  envPreBuildOK env && decide (env.buildStatus = CL_SUCCESS) &&
    decide (env.kernelStatus = CL_SUCCESS) && decide (env.dirBufferStatus = CL_SUCCESS) &&
    decide (env.colorBufferStatus = CL_SUCCESS)

/-- A concrete all-success device environment used to instantiate theorems. -/
def env0 : DeviceEnv :=
  { platformStatus := 0, platforms := 1, deviceStatus := 0, devices := 1,
    contextStatus := 0, queueStatus := 0, kernelSource := "kernelSource",
    ratioString := fun _ _ => "1.000000", programStatus := 0, buildStatus := 0,
    buildLog := "buildLog", kernelStatus := 0, dirBufferStatus := 0,
    colorBufferStatus := 0, writeStatus := 0, setArgStatus := 0,
    ndrangeStatus := 0, finishStatus := 0, readStatus := 0 }

/-- One line of the `defines` preamble: `#define <name> <value>\n`. -/
def mkDefineLine (name value : String) : String :=
  "#define " ++ name ++ " " ++ value ++ "\n"

/-- Whether a device call is a device enumeration (`cl::Platform::getDevices`). -/
def isDeviceEnumeration : CLCall → Bool
  | .getDevices _ _ => true
  | _ => false

/-- A device environment whose platform enumeration fails. -/
def envPlatformFail : DeviceEnv := { env0 with platformStatus := -32 }

/-- A device environment with a working platform but no GPU device:
device enumeration reports `CL_DEVICE_NOT_FOUND` and an empty device list. -/
def envNoDevices : DeviceEnv := { env0 with deviceStatus := -1, devices := 0 }

/-- A device environment whose kernel build fails with
`CL_BUILD_PROGRAM_FAILURE` (-11). -/
def envBuildFail : DeviceEnv := { env0 with buildStatus := -11 }

end CLProgram

namespace INFFile

/-- The fixed 8-byte XOR key table from `INFFile::INFFile` (adapted from
BSATool). -/
def encryptionKeys : List Nat := [0xEA, 0x7B, 0x4E, 0xBD, 0x19, 0xC9, 0x38, 0x99]

/-- The decryption loop body of `INFFile::INFFile`: each byte is XORed with
`count + encryptionKeys.at(keyIndex)` and truncated back to 8 bits by the
`uint8_t` assignment; `keyIndex` advances mod 8 and the `uint8_t` counter
wraps mod 256.  Bytes are modelled as naturals below 256. -/
def decryptLoop (keyIndex count : Nat) : List Nat → List Nat
  | [] => []
  | b :: rest =>
    ((b ^^^ (count + encryptionKeys.getD keyIndex 0)) % 256) ::
      decryptLoop ((keyIndex + 1) % encryptionKeys.length) ((count + 1) % 256) rest

/-- The whole-file transform: the loop starting from `keyIndex = 0`,
`count = 0`. -/
def decrypt (data : List Nat) : List Nat := decryptLoop 0 0 data

end INFFile

/-! ## Helper lemmas -/

namespace CLProgram

/-- The constructor on an all-success environment returns normally, stores the
given dimensions, selects device index 0, and issues exactly the calls of
`constructTrace`. -/
theorem construct_ok (env : DeviceEnv) (w h : Int) (hw : 0 < w) (hh : 0 < h)
    (henv : envOK env = true) :
    construct env w h =
      .ok (constructTrace env w h) { width := w, height := h, deviceIndex := 0 } := by
  simp only [envOK, envPreBuildOK, Bool.and_eq_true, decide_eq_true_eq] at henv
  obtain ⟨⟨⟨⟨⟨⟨⟨⟨⟨⟨hp, hpl⟩, hd⟩, hdl⟩, hc⟩, hq⟩, hpr⟩, hb⟩, hk⟩, hdb⟩, hcb⟩ := henv
  simp [construct, constructTrace, CL_SUCCESS, CL_DEVICE_NOT_FOUND,
    hp, hpl, hd, hdl, hc, hq, hpr, hb, hk, hdb, hcb, hw, hh]

end CLProgram

namespace INFFile

/-- Truncation to 8 bits distributes over XOR. -/
theorem xor_mod256 (u v : Nat) : (u ^^^ v) % 256 = u % 256 ^^^ v % 256 := by
  have h : (256 : Nat) = 2 ^ 8 := by norm_num
  rw [h, ← Nat.and_pow_two_sub_one_eq_mod, ← Nat.and_pow_two_sub_one_eq_mod,
    ← Nat.and_pow_two_sub_one_eq_mod, Nat.and_xor_distrib_right]

/-- XORing a byte twice with the same mask, truncating to 8 bits each time,
recovers the byte. -/
theorem byte_xor_cancel (b m : Nat) (hb : b < 256) :
    (((b ^^^ m) % 256) ^^^ m) % 256 = b := by
  rw [xor_mod256 ((b ^^^ m) % 256) m, Nat.mod_mod_of_dvd _ (dvd_refl 256),
    xor_mod256 b m, Nat.mod_eq_of_lt hb, Nat.xor_assoc, Nat.xor_self, Nat.xor_zero]

/-- The decryption loop from any starting key index and counter undoes
itself. -/
theorem decryptLoop_involution (data : List Nat) :
    ∀ keyIndex count, (∀ b ∈ data, b < 256) →
      decryptLoop keyIndex count (decryptLoop keyIndex count data) = data := by
  induction data with
  | nil => intro k c _; rfl
  | cons b rest ih =>
    intro k c h
    simp only [decryptLoop]
    rw [byte_xor_cancel b _ (h b (List.mem_cons_self b rest))]
    rw [ih _ _ (fun x hx => h x (List.mem_cons_of_mem b hx))]

end INFFile

/-! ## Claims -/

namespace CLProgram

/-- Claim C1: every call to `updateDirection` that returns has performed the
synchronous (blocking) write of the new direction vector into the direction
device buffer and then, unconditionally, re-bound kernel argument 0 to the
direction buffer handle before returning; the rebind step is never skipped. -/
theorem c1_updateDirection_always_rebinds {α : Type} (env : DeviceEnv) (st : CLState)
    (x y z zero : α)
    (hwrite : env.writeStatus = CL_SUCCESS) (harg : env.setArgStatus = CL_SUCCESS) :
    updateDirection env st x y z zero =
      .ok [CLCall.enqueueWriteBuffer .direction true 0 sizeof_cl_float3,
        CLCall.setArg 0 .direction] st := by
  simp [updateDirection, directionHostBuffer, hwrite, harg, CL_SUCCESS,
    sizeof_cl_float, sizeof_cl_float3]

theorem c1_witness :
    updateDirection env0 { width := 2, height := 3, deviceIndex := 0 } (1 : Int) 2 3 0 =
      .ok [CLCall.enqueueWriteBuffer .direction true 0 sizeof_cl_float3,
        CLCall.setArg 0 .direction] { width := 2, height := 3, deviceIndex := 0 } :=
  c1_updateDirection_always_rebinds env0 _ 1 2 3 0 rfl rfl

/-- Claim C2 counterexample: at a concrete direction update, the blocking
write into the direction buffer transfers `buffer.size()` =
`sizeof(cl_float3)` = 16 bytes - the full padded vector including its
trailing padding - and 16 is not the 12 bytes the claim asserts. -/
theorem c2_counterexample :
    updateDirection env0 { width := 2, height := 3, deviceIndex := 0 } (5 : Int) 6 7 0 =
      .ok [CLCall.enqueueWriteBuffer .direction true 0 16, CLCall.setArg 0 .direction]
        { width := 2, height := 3, deviceIndex := 0 } ∧ (16 : Int) ≠ 12 := by
  exact ⟨by decide, by decide⟩

/-- Claim C2 (amended): `updateDirection` serializes the direction's x, y, z
components into the first three single-precision slots of a host buffer laid
out with the device's padded 4-component stride (`sizeof(cl_float3)` = 16
bytes, the fourth slot being the buffer's zero initialization), and the
blocking write into the direction device buffer at offset 0 transfers the
buffer's full `sizeof(cl_float3)` bytes - the 12 logical bytes together with
the trailing padding, not only the logical 12. -/
theorem c2_serialization_and_write {α : Type} (env : DeviceEnv) (st : CLState)
    (x y z zero : α)
    (hwrite : env.writeStatus = CL_SUCCESS) (harg : env.setArgStatus = CL_SUCCESS) :
    directionHostBuffer x y z zero = [x, y, z, zero] ∧
    sizeof_cl_float * (directionHostBuffer x y z zero).length = sizeof_cl_float3 ∧
    updateDirection env st x y z zero =
      .ok [CLCall.enqueueWriteBuffer .direction true 0 sizeof_cl_float3,
        CLCall.setArg 0 .direction] st := by
  refine ⟨rfl, rfl, ?_⟩
  simp [updateDirection, directionHostBuffer, hwrite, harg, CL_SUCCESS,
    sizeof_cl_float, sizeof_cl_float3]

theorem c2_witness :
    directionHostBuffer (5 : Int) 6 7 0 = [5, 6, 7, 0] ∧
    sizeof_cl_float * (directionHostBuffer (5 : Int) 6 7 0).length = sizeof_cl_float3 ∧
    updateDirection env0 { width := 4, height := 5, deviceIndex := 0 } (5 : Int) 6 7 0 =
      .ok [CLCall.enqueueWriteBuffer .direction true 0 sizeof_cl_float3,
        CLCall.setArg 0 .direction] { width := 4, height := 5, deviceIndex := 0 } :=
  c2_serialization_and_write env0 _ 5 6 7 0 rfl rfl

end CLProgram

namespace INFFile

/-- Claim C9: the INF-file decryption transform - XOR of byte i with
`count_i + key[i mod 8]` truncated to 8 bits, where `count_i` wraps every 256
bytes and the key is the fixed 8-byte table - is an involution: applying it
twice yields the original byte sequence. -/
theorem c9_decrypt_involution (data : List Nat) (h : ∀ b ∈ data, b < 256) :
    decrypt (decrypt data) = data :=
  decryptLoop_involution data 0 0 h

theorem c9_witness :
    decrypt (decrypt [0x41, 0xFF, 0x00, 0x7A, 0x13]) = [0x41, 0xFF, 0x00, 0x7A, 0x13] :=
  c9_decrypt_involution [0x41, 0xFF, 0x00, 0x7A, 0x13] (by decide)

end INFFile

namespace CLProgram

/-- Claim C3: for every positive width and height, the color buffer is
allocated with exactly 4*width*height bytes, the direction buffer with
exactly one padded 3-component single-precision vector (`sizeof(cl_float3)` =
16 bytes), and the per-frame read-back of the color buffer transfers exactly
4*width*height bytes. -/
theorem c3_buffer_sizes (env : DeviceEnv) (w h : Int) (hw : 0 < w) (hh : 0 < h)
    (henv : envOK env = true)
    (hnd : env.ndrangeStatus = CL_SUCCESS) (hf : env.finishStatus = CL_SUCCESS)
    (hr : env.readStatus = CL_SUCCESS) :
    construct env w h =
      .ok (constructTrace env w h) { width := w, height := h, deviceIndex := 0 } ∧
    CLCall.createBuffer .color CL_MEM_WRITE_ONLY (4 * w * h) ∈ constructTrace env w h ∧
    CLCall.createBuffer .direction CL_MEM_READ_ONLY sizeof_cl_float3 ∈
      constructTrace env w h ∧
    sizeof_cl_float3 = 16 ∧
    render env { width := w, height := h, deviceIndex := 0 } (some { w := w, h := h }) =
      .ok [CLCall.enqueueNDRangeKernel w h, CLCall.finish,
        CLCall.enqueueReadBuffer .color true 0 (4 * w * h)]
        { width := w, height := h, deviceIndex := 0 } := by
  refine ⟨construct_ok env w h hw hh henv, ?_, ?_, rfl, ?_⟩
  · simp [constructTrace, sizeof_cl_int]
  · simp [constructTrace]
  · simp [render, hnd, hf, hr, CL_SUCCESS, sizeof_cl_int]

theorem c3_witness :
    construct env0 2 3 =
      .ok (constructTrace env0 2 3) { width := 2, height := 3, deviceIndex := 0 } ∧
    CLCall.createBuffer .color CL_MEM_WRITE_ONLY (4 * 2 * 3) ∈ constructTrace env0 2 3 ∧
    CLCall.createBuffer .direction CL_MEM_READ_ONLY sizeof_cl_float3 ∈
      constructTrace env0 2 3 ∧
    sizeof_cl_float3 = 16 ∧
    render env0 { width := 2, height := 3, deviceIndex := 0 } (some { w := 2, h := 3 }) =
      .ok [CLCall.enqueueNDRangeKernel 2 3, CLCall.finish,
        CLCall.enqueueReadBuffer .color true 0 (4 * 2 * 3)]
        { width := 2, height := 3, deviceIndex := 0 } :=
  c3_buffer_sizes env0 2 3 (by decide) (by decide) rfl rfl rfl rfl

/-- Claim C5: `render` rejects a null destination surface or one whose width
or height differs from the stored dimensions by assertion failure before any
device call is issued; when the dimensions match exactly, the checks pass and
the kernel enqueue, the queue drain and the buffer read-back are all
issued. -/
theorem c5_render_guards (env : DeviceEnv) (st : CLState) (dst : Option SDLSurface)
    (hnd : env.ndrangeStatus = CL_SUCCESS) (hf : env.finishStatus = CL_SUCCESS)
    (hr : env.readStatus = CL_SUCCESS) :
    (dst = none → render env st dst = .assertFail []) ∧
    (∀ d, dst = some d → (d.w ≠ st.width ∨ d.h ≠ st.height) →
      render env st dst = .assertFail []) ∧
    (∀ d, dst = some d → d.w = st.width → d.h = st.height →
      render env st dst =
        .ok [CLCall.enqueueNDRangeKernel st.width st.height, CLCall.finish,
          CLCall.enqueueReadBuffer .color true 0 (sizeof_cl_int * st.width * st.height)]
          st) := by
  refine ⟨?_, ?_, ?_⟩
  · rintro rfl; rfl
  · rintro d rfl (hne | hne)
    · have hne2 : ¬ st.width = d.w := Ne.symm hne
      simp [render, hne2]
    · by_cases hweq : st.width = d.w
      · have hne2 : ¬ st.height = d.h := Ne.symm hne
        simp [render, hweq, hne2]
      · simp [render, hweq]
  · rintro d rfl hweq hheq
    simp [render, hweq, hheq, hnd, hf, hr, CL_SUCCESS]

theorem c5_witness :
    render env0 { width := 2, height := 3, deviceIndex := 0 } (some { w := 2, h := 3 }) =
      .ok [CLCall.enqueueNDRangeKernel 2 3, CLCall.finish,
        CLCall.enqueueReadBuffer .color true 0 (sizeof_cl_int * 2 * 3)]
        { width := 2, height := 3, deviceIndex := 0 } :=
  (c5_render_guards env0 { width := 2, height := 3, deviceIndex := 0 }
    (some { w := 2, h := 3 }) rfl rfl rfl).2.2 { w := 2, h := 3 } rfl rfl rfl

/-- Claim C10: the constructor asserts width > 0 and height > 0 on entry,
before any device interaction; under this precondition the stored width and
height equal the constructor arguments, remain unchanged by the per-frame
member functions, and every derived size (the 4*width*height color-buffer
byte count, the (width, height) dispatch grid) is strictly positive. -/
theorem c10_dimension_invariants (env : DeviceEnv) (w h : Int) :
    ((¬ 0 < w ∨ ¬ 0 < h) → construct env w h = .assertFail []) ∧
    (0 < w → 0 < h → envOK env = true →
      construct env w h =
        .ok (constructTrace env w h) { width := w, height := h, deviceIndex := 0 } ∧
      0 < sizeof_cl_int * w * h ∧ 0 < w ∧ 0 < h ∧
      (env.writeStatus = CL_SUCCESS → env.setArgStatus = CL_SUCCESS →
        ∀ x y z zero : Int,
          updateDirection env { width := w, height := h, deviceIndex := 0 } x y z zero =
            .ok [CLCall.enqueueWriteBuffer .direction true 0 sizeof_cl_float3,
              CLCall.setArg 0 .direction] { width := w, height := h, deviceIndex := 0 }) ∧
      (env.ndrangeStatus = CL_SUCCESS → env.finishStatus = CL_SUCCESS →
        env.readStatus = CL_SUCCESS →
        render env { width := w, height := h, deviceIndex := 0 } (some { w := w, h := h }) =
          .ok [CLCall.enqueueNDRangeKernel w h, CLCall.finish,
            CLCall.enqueueReadBuffer .color true 0 (sizeof_cl_int * w * h)]
            { width := w, height := h, deviceIndex := 0 })) := by
  constructor
  · rintro (hw | hh)
    · simp [construct, hw]
    · by_cases hw : 0 < w <;> simp [construct, hw, hh]
  · intro hw hh henv
    refine ⟨construct_ok env w h hw hh henv, ?_, hw, hh, ?_, ?_⟩
    · have h4 : (0 : Int) < sizeof_cl_int := by norm_num [sizeof_cl_int]
      exact mul_pos (mul_pos h4 hw) hh
    · intro hws has x y z zero
      simp [updateDirection, directionHostBuffer, hws, has, CL_SUCCESS,
        sizeof_cl_float, sizeof_cl_float3]
    · intro hnd hf hr
      simp [render, hnd, hf, hr, CL_SUCCESS]

theorem c10_witness :
    construct env0 (-1) 5 = .assertFail [] :=
  (c10_dimension_invariants env0 (-1) 5).1 (Or.inl (by decide))

end CLProgram

namespace CLProgram

/-- Claim C4: `getErrorString` special-cases exactly the single build-failure
code -11, returning the live compiler build log for it and a fixed,
log-independent string for every other code; on a failed kernel build the
log is surfaced inside the fatal diagnostic, and that diagnostic is never the
empty string. -/
theorem c4_build_failure_log (env : DeviceEnv) (w h : Int) (hw : 0 < w) (hh : 0 < h)
    (hpre : envPreBuildOK env = true) (hb : env.buildStatus = -11) :
    getErrorString env.buildLog (-11) = env.buildLog ∧
    (∀ e : Int, e ≠ -11 → ∀ l1 l2 : String, getErrorString l1 e = getErrorString l2 e) ∧
    construct env w h =
      .fatal [CLCall.getPlatforms, CLCall.getDevices 0 CL_DEVICE_TYPE_GPU,
        CLCall.createContext 0, CLCall.createCommandQueue,
        CLCall.createProgram
          (definesString w h (env.ratioString w h) ++ env.kernelSource),
        CLCall.buildProgram clOptions] "CLProgram"
        ("cl::Program::build (" ++ env.buildLog ++ ").") ∧
    ("cl::Program::build (" ++ env.buildLog ++ ").") ≠ "" := by
  simp only [envPreBuildOK, Bool.and_eq_true, decide_eq_true_eq] at hpre
  obtain ⟨⟨⟨⟨⟨⟨hp, hpl⟩, hd⟩, hdl⟩, hc⟩, hq⟩, hpr⟩ := hpre
  refine ⟨rfl, ?_, ?_, ?_⟩
  · intro e he l1 l2
    unfold getErrorString
    split <;> first | rfl | (exact absurd rfl he)
  · simp [construct, CL_SUCCESS, CL_DEVICE_NOT_FOUND, hp, hpl, hd, hdl, hc, hq, hpr,
      hb, hw, hh, getErrorString]
  · intro hcontra
    have hlen := congrArg String.length hcontra
    simp [String.length_append] at hlen
    exact absurd hlen.1.1 (by decide)

theorem c4_witness :
    construct envBuildFail 2 3 =
      .fatal [CLCall.getPlatforms, CLCall.getDevices 0 CL_DEVICE_TYPE_GPU,
        CLCall.createContext 0, CLCall.createCommandQueue,
        CLCall.createProgram
          (definesString 2 3 (envBuildFail.ratioString 2 3) ++ envBuildFail.kernelSource),
        CLCall.buildProgram clOptions] "CLProgram"
        ("cl::Program::build (" ++ envBuildFail.buildLog ++ ").") :=
  (c4_build_failure_log envBuildFail 2 3 (by decide) (by decide) rfl rfl).2.2.1

/-- Claim C6: the constructor fails fatally when no platform exists; it
enumerates GPU-class devices from the first platform only and exactly once,
fails fatally when none exist (no CPU fallback), selects the first GPU-class
device; and a non-success status from platform enumeration, device
enumeration, context creation or command-queue creation is fatal with a
diagnostic naming the failing operation. -/
theorem c6_construct_failures (env : DeviceEnv) (w h : Int) (hw : 0 < w) (hh : 0 < h) :
    (env.platformStatus ≠ CL_SUCCESS →
      construct env w h =
        .fatal [CLCall.getPlatforms] "CLProgram" "CLProgram::getPlatforms.") ∧
    (env.platformStatus = CL_SUCCESS → env.platforms = 0 →
      construct env w h =
        .fatal [CLCall.getPlatforms] "CLProgram" "No OpenCL platform found.") ∧
    (env.platformStatus = CL_SUCCESS → 0 < env.platforms →
      env.deviceStatus ≠ CL_SUCCESS → env.deviceStatus ≠ CL_DEVICE_NOT_FOUND →
      construct env w h =
        .fatal [CLCall.getPlatforms, CLCall.getDevices 0 CL_DEVICE_TYPE_GPU]
          "CLProgram" "CLProgram::getDevices.") ∧
    (env.platformStatus = CL_SUCCESS → 0 < env.platforms →
      env.deviceStatus = CL_DEVICE_NOT_FOUND → env.devices = 0 →
      construct env w h =
        .fatal [CLCall.getPlatforms, CLCall.getDevices 0 CL_DEVICE_TYPE_GPU]
          "CLProgram" "No OpenCL device found.") ∧
    (env.platformStatus = CL_SUCCESS → 0 < env.platforms →
      env.deviceStatus = CL_SUCCESS → 0 < env.devices → env.contextStatus ≠ CL_SUCCESS →
      construct env w h =
        .fatal [CLCall.getPlatforms, CLCall.getDevices 0 CL_DEVICE_TYPE_GPU,
          CLCall.createContext 0] "CLProgram" "cl::Context.") ∧
    (env.platformStatus = CL_SUCCESS → 0 < env.platforms →
      env.deviceStatus = CL_SUCCESS → 0 < env.devices → env.contextStatus = CL_SUCCESS →
      env.queueStatus ≠ CL_SUCCESS →
      construct env w h =
        .fatal [CLCall.getPlatforms, CLCall.getDevices 0 CL_DEVICE_TYPE_GPU,
          CLCall.createContext 0, CLCall.createCommandQueue]
          "CLProgram" "cl::CommandQueue.") ∧
    (envOK env = true →
      construct env w h =
        .ok (constructTrace env w h) { width := w, height := h, deviceIndex := 0 } ∧
      (constructTrace env w h).countP isDeviceEnumeration = 1 ∧
      CLCall.getDevices 0 CL_DEVICE_TYPE_GPU ∈ constructTrace env w h) := by
  refine ⟨?_, ?_, ?_, ?_, ?_, ?_, ?_⟩
  · intro hp; simp [construct, hp, hw, hh]
  · intro hp hpl; simp [construct, hp, hpl, hw, hh]
  · intro hp hpl hd1 hd2; simp [construct, hp, hpl, hd1, hd2, hw, hh]
  · intro hp hpl hd hdl; simp [construct, hp, hpl, hd, hdl, hw, hh]
  · intro hp hpl hd hdl hc; simp [construct, hp, hpl, hd, hdl, hc, hw, hh]
  · intro hp hpl hd hdl hc hq; simp [construct, hp, hpl, hd, hdl, hc, hq, hw, hh]
  · intro henv
    refine ⟨construct_ok env w h hw hh henv, ?_, ?_⟩
    · simp [constructTrace, List.countP_cons, isDeviceEnumeration]
    · simp [constructTrace]

theorem c6_witness :
    construct envNoDevices 2 3 =
      .fatal [CLCall.getPlatforms, CLCall.getDevices 0 CL_DEVICE_TYPE_GPU]
        "CLProgram" "No OpenCL device found." :=
  (c6_construct_failures envNoDevices 2 3 (by decide) (by decide)).2.2.2.1
    rfl (by decide) rfl rfl

end CLProgram

namespace CLProgram

/-- Claim C7 counterexample: -11 is a defined status code (it has its own
case label), yet it does not map to a stable human-readable name: two
different device build logs produce two different results. -/
theorem c7_counterexample :
    isKnownCode (-11) = true ∧
    getErrorString "log one" (-11) ≠ getErrorString "log two" (-11) :=
  ⟨rfl, by decide⟩

/-- Claim C7 (amended): `getErrorString` is a total function on integers;
code 0 maps to the canonical "CL_SUCCESS" label; every defined status code
other than the build-failure code -11 maps to a stable, non-empty
human-readable name independent of device state; -11 returns the live build
log; and every code outside the defined set - in particular any arbitrary
unknown negative number - yields a message that embeds the raw numeric code
rather than failing. -/
theorem c7_describe_total (log : String) :
    getErrorString log 0 = "CL_SUCCESS" ∧
    (∀ e : Int, isKnownCode e = true → e ≠ -11 →
      (∀ l1 l2 : String, getErrorString l1 e = getErrorString l2 e) ∧
        getErrorString log e ≠ "") ∧
    getErrorString log (-11) = log ∧
    (∀ e : Int, isKnownCode e = false →
      getErrorString log e = "Unknown OpenCL error \"" ++ toString e ++ "\"" ∧
      ∃ s t : String, getErrorString log e = s ++ toString e ++ t) := by
  refine ⟨rfl, ?_, rfl, ?_⟩
  · intro e _ hne
    constructor
    · intro l1 l2
      unfold getErrorString
      split <;> first | rfl | (exact absurd rfl hne)
    · unfold getErrorString
      split <;> first
        | (exact absurd rfl hne)
        | decide
        | (intro hcontra; have hlen := congrArg String.length hcontra;
           simp [String.length_append] at hlen; exact absurd hlen.1.1 (by decide))
  · intro e hk
    have heq : getErrorString log e = "Unknown OpenCL error \"" ++ toString e ++ "\"" := by
      unfold getErrorString
      split <;> first | rfl | (exact absurd hk (by decide))
    exact ⟨heq, "Unknown OpenCL error \"", "\"", heq⟩

theorem c7_witness :
    getErrorString "some log" 0 = "CL_SUCCESS" :=
  (c7_describe_total "some log").1

/-- Claim C8: the kernel source is prefixed with exactly three preprocessor
defines derived from the constructor arguments: SCREEN_WIDTH as the integer
width, SCREEN_HEIGHT as the integer height, and ASPECT_RATIO as the
width/height ratio emitted as a floating literal carrying the explicit
single-precision f suffix appended to the ratio's decimal rendering `r`. -/
theorem c8_defines_preamble (w h : Int) (r : String) (env : DeviceEnv)
    (hw : 0 < w) (hh : 0 < h) (henv : envOK env = true) :
    definesString w h r =
      mkDefineLine "SCREEN_WIDTH" (toString w) ++
        mkDefineLine "SCREEN_HEIGHT" (toString h) ++
        mkDefineLine "ASPECT_RATIO" (r ++ "f") ∧
    (r ++ "f").data = r.data ++ ['f'] ∧
    construct env w h =
      .ok (constructTrace env w h) { width := w, height := h, deviceIndex := 0 } ∧
    CLCall.createProgram (definesString w h (env.ratioString w h) ++ env.kernelSource) ∈
      constructTrace env w h := by
  refine ⟨?_, ?_, construct_ok env w h hw hh henv, ?_⟩
  · have h1 : ∀ y : String, "\n" ++ ("#define SCREEN_HEIGHT " ++ y) =
        "\n#define SCREEN_HEIGHT " ++ y := fun y => by rw [← String.append_assoc]; rfl
    have h2 : ∀ y : String, "\n" ++ ("#define ASPECT_RATIO " ++ y) =
        "\n#define ASPECT_RATIO " ++ y := fun y => by rw [← String.append_assoc]; rfl
    simp [definesString, mkDefineLine, String.append_assoc, h1, h2]
  · simp [String.data_append]
  · simp [constructTrace]

theorem c8_witness :
    definesString 2 3 "0.666667" =
      mkDefineLine "SCREEN_WIDTH" (toString (2 : Int)) ++
        mkDefineLine "SCREEN_HEIGHT" (toString (3 : Int)) ++
        mkDefineLine "ASPECT_RATIO" ("0.666667" ++ "f") :=
  (c8_defines_preamble 2 3 "0.666667" env0 (by decide) (by decide) rfl).1

end CLProgram
